import Mathlib

/-!
# Verification of the analytics API and dataset generator

A shallow embedding of `src/api/main.py` and
`src/database/generate_large_dataset.py`.

Timestamps are integers (seconds); `DATE(ts)` is modelled by flooring
division by the length of a day, which identifies timestamps on the same
calendar day and is monotone.  SQL result sets are lists; `GROUP BY` with
`ORDER BY` over a grouping key is modelled by sorting the finite set of
distinct keys.  Python/PostgreSQL numeric results are modelled over `ℚ`:
`round(x, 2)` (Python, round-half-to-even) and `ROUND(x::NUMERIC, 2)`
(PostgreSQL, round-half-away-from-zero) each get their own definition.
-/

namespace Analytics

/-- The engagement `type` column: `'view' | 'like' | 'comment' | 'share'`. -/
inductive EngType where
  | view
  | like
  | comment
  | share
deriving DecidableEq

/-- A row of the `authors` table (the columns the API reads). -/
structure Author where
  author_id : ℤ
  name : String
deriving DecidableEq

/-- A row of the `posts` table (the columns the API reads). -/
structure Post where
  post_id : ℤ
  author_id : ℤ
  title : String
  publish_timestamp : ℤ
deriving DecidableEq

/-- A row of the `engagements` table (the columns the API reads). -/
structure Engagement where
  engagement_id : ℤ
  post_id : ℤ
  etype : EngType
  user_id : Option ℤ
  engaged_timestamp : ℤ
deriving DecidableEq

/-- The database state the API queries run against. -/
structure DB where
  authors : List Author
  posts : List Post
  engagements : List Engagement
deriving DecidableEq

/-- Seconds per day: `timedelta(days=n)` is `n * dayLen` seconds. -/
def dayLen : ℤ := 86400

/-- `DATE(ts)`: the calendar day of a timestamp (floor division by a day). -/
def dateOf (t : ℤ) : ℤ := Int.fdiv t dayLen

/-- The floor of a rational, written out so that it evaluates. -/
def ratFloor (q : ℚ) : ℤ := Int.fdiv q.num (q.den : ℤ)

/-- Round half to even, as Python `round` on the exact value. -/
def roundHalfEven (q : ℚ) : ℤ :=
  if q - (ratFloor q : ℚ) < 1 / 2 then ratFloor q
  else if 1 / 2 < q - (ratFloor q : ℚ) then ratFloor q + 1
  else if ratFloor q % 2 = 0 then ratFloor q else ratFloor q + 1

/-- Python `round(x, 2)` on the exact value. -/
def round2 (q : ℚ) : ℚ := (roundHalfEven (q * 100) : ℚ) / 100

/-- PostgreSQL `ROUND(x::NUMERIC, 2)`: round half away from zero. -/
def pgRound2 (q : ℚ) : ℚ :=
  (if 0 ≤ q then (ratFloor (q * 100 + 1 / 2) : ℚ)
   else -(ratFloor (-(q * 100) + 1 / 2) : ℚ)) / 100

/-! ## Trend endpoints (`get_post_trends`, `get_author_trends`)

Both endpoints run the same per-window aggregate:

```
SELECT DATE(engaged_timestamp) AS date,
       COUNT(*) FILTER (WHERE type = 'view') AS views, ..., COUNT(*) AS total
FROM <filtered engagements> GROUP BY DATE(engaged_timestamp) ORDER BY date
```
-/

/-- `COUNT(*) FILTER (WHERE type = t)` over a list of engagement rows. -/
def typeCount (es : List Engagement) (t : EngType) : ℕ :=
  (es.filter fun e => decide (e.etype = t)).length

/-- The rows of `es` whose timestamp falls on calendar day `d`. -/
def onDate (es : List Engagement) (d : ℤ) : List Engagement :=
  es.filter fun e => decide (dateOf e.engaged_timestamp = d)

/-- The distinct calendar days occurring in `es`, ascending (`GROUP BY
`DATE(...)` with `ORDER BY date`). -/
def trendDates (es : List Engagement) : List ℤ :=
  List.insertionSort (· ≤ ·) (es.map fun e => dateOf e.engaged_timestamp).dedup

/-- One output row of the trend aggregate (the `EngagementTrend` model). -/
structure EngagementTrend where
  date : ℤ
  views : ℕ
  likes : ℕ
  comments : ℕ
  shares : ℕ
  total : ℕ
deriving DecidableEq

/-- The full `GROUP BY DATE ... ORDER BY date` result over `es`. -/
def trendRows (es : List Engagement) : List EngagementTrend :=
  (trendDates es).map fun d =>
    { date := d
      views := typeCount (onDate es d) EngType.view
      likes := typeCount (onDate es d) EngType.like
      comments := typeCount (onDate es d) EngType.comment
      shares := typeCount (onDate es d) EngType.share
      total := (onDate es d).length }

/-- `sum(row['total'] for row in period)`. -/
def sumTotals (rows : List EngagementTrend) : ℕ :=
  (rows.map fun row => row.total).sum

/-- The `change_percent` computation shared by both trend endpoints:
`0.0` unless the previous total is positive, then the percent-change
formula; the result is passed through Python `round(_, 2)`. -/
def change_percent_calc (curTotal prevTotal : ℕ) : ℚ :=
  round2 (if 0 < prevTotal then
            (((curTotal : ℚ) - (prevTotal : ℚ)) / (prevTotal : ℚ)) * 100
          else 0)

/-- Engagements of post `pid` matched by the current-period query:
`post_id = pid AND engaged_timestamp >= now - days` — note the query has
no upper bound on the timestamp. -/
def currentEngsPost (db : DB) (pid now days : ℤ) : List Engagement :=
  db.engagements.filter fun e =>
    decide (e.post_id = pid ∧ now - days * dayLen ≤ e.engaged_timestamp)

/-- Engagements of post `pid` matched by the previous-period query:
`post_id = pid AND engaged_timestamp >= previous_start AND
engaged_timestamp < current_start`. -/
def previousEngsPost (db : DB) (pid now days : ℤ) : List Engagement :=
  db.engagements.filter fun e =>
    decide (e.post_id = pid ∧
            now - days * dayLen - days * dayLen ≤ e.engaged_timestamp ∧
            e.engaged_timestamp < now - days * dayLen)

/-- `JOIN posts p ON e.post_id = p.post_id WHERE p.author_id = aid`: one
copy of each engagement per matching post row. -/
def authorEngs (db : DB) (aid : ℤ) : List Engagement :=
  db.engagements.flatMap fun e =>
    (db.posts.filter fun p =>
      decide (e.post_id = p.post_id ∧ p.author_id = aid)).map fun _ => e

/-- Author-trend current-period rows (again no upper timestamp bound). -/
def currentEngsAuthor (db : DB) (aid now days : ℤ) : List Engagement :=
  (authorEngs db aid).filter fun e =>
    decide (now - days * dayLen ≤ e.engaged_timestamp)

/-- Author-trend previous-period rows. -/
def previousEngsAuthor (db : DB) (aid now days : ℤ) : List Engagement :=
  (authorEngs db aid).filter fun e =>
    decide (now - days * dayLen - days * dayLen ≤ e.engaged_timestamp ∧
            e.engaged_timestamp < now - days * dayLen)

/-- An HTTP outcome: a JSON body, or an error status with a detail
string. -/
inductive ApiResult (α : Type) where
  | ok (value : α)
  | err (status : ℕ) (detail : String)
deriving DecidableEq

/-- The `PostTrendsResponse` model. -/
structure PostTrendsResponse where
  post_id : ℤ
  post_title : String
  current_period : List EngagementTrend
  previous_period : List EngagementTrend
  change_percent : ℚ
deriving DecidableEq

/-- The `AuthorTrendsResponse` model. -/
structure AuthorTrendsResponse where
  author_id : ℤ
  author_name : String
  current_period : List EngagementTrend
  previous_period : List EngagementTrend
  change_percent : ℚ
deriving DecidableEq

/-- The body of the `try:` block of `get_post_trends`: an `error` value is
an exception raised inside the block.  When the post lookup returns no
row the handler raises `HTTPException(404, "Post not found")`; its string
form is `"404: Post not found"`. -/
def postTrendsBody (db : DB) (now pid days : ℤ) :
    Except String PostTrendsResponse :=
  match db.posts.find? fun p => decide (p.post_id = pid) with
  | none => Except.error "404: Post not found"
  | some post =>
    let curRows := trendRows (currentEngsPost db pid now days)
    let prevRows := trendRows (previousEngsPost db pid now days)
    Except.ok
      { post_id := pid
        post_title := post.title
        current_period := curRows
        previous_period := prevRows
        change_percent := change_percent_calc (sumTotals curRows) (sumTotals prevRows) }

/-- `GET /api/engagement/trends/post/{post_id}?days=N`.  The handler wraps
the whole body in `except Exception as e: raise HTTPException(500, str(e))`;
since `HTTPException` is a subclass of `Exception`, the 404 raised for a
missing post is caught here too and re-raised with status 500. -/
def get_post_trends (db : DB) (now pid days : ℤ) :
    ApiResult PostTrendsResponse :=
  match postTrendsBody db now pid days with
  | Except.ok r => ApiResult.ok r
  | Except.error msg => ApiResult.err 500 msg

/-- The body of the `try:` block of `get_author_trends`. -/
def authorTrendsBody (db : DB) (now aid days : ℤ) :
    Except String AuthorTrendsResponse :=
  match db.authors.find? fun a => decide (a.author_id = aid) with
  | none => Except.error "404: Author not found"
  | some author =>
    let curRows := trendRows (currentEngsAuthor db aid now days)
    let prevRows := trendRows (previousEngsAuthor db aid now days)
    Except.ok
      { author_id := aid
        author_name := author.name
        current_period := curRows
        previous_period := prevRows
        change_percent := change_percent_calc (sumTotals curRows) (sumTotals prevRows) }

/-- `GET /api/engagement/trends/author/{author_id}?days=N`, with the same
blanket `except Exception` conversion to status 500. -/
def get_author_trends (db : DB) (now aid days : ℤ) :
    ApiResult AuthorTrendsResponse :=
  match authorTrendsBody db now aid days with
  | Except.ok r => ApiResult.ok r
  | Except.error msg => ApiResult.err 500 msg

/-! ## Summary endpoint (`get_analytics_summary`)

```
SELECT COUNT(DISTINCT a.author_id), COUNT(DISTINCT p.post_id),
       COUNT(e.engagement_id), COUNT(*) FILTER (WHERE e.type = ...) × 4,
       ROUND(COUNT(e.engagement_id)::NUMERIC
             / NULLIF(COUNT(DISTINCT p.post_id), 0), 2)
FROM authors a
LEFT JOIN posts p ON a.author_id = p.author_id
LEFT JOIN engagements e ON p.post_id = e.post_id
WHERE p.publish_timestamp >= start OR p.publish_timestamp IS NULL
```
-/

/-- A row of the `authors LEFT JOIN posts LEFT JOIN engagements` chain:
`post`/`eng` are `none` for the NULL-extended columns. -/
structure SummaryRow where
  author : Author
  post : Option Post
  eng : Option Engagement
deriving DecidableEq

/-- The row set of the left-join chain: an author with no posts yields one
row with NULL post and engagement; a post with no engagements yields one
row with NULL engagement. -/
def summaryRows (db : DB) : List SummaryRow :=
  db.authors.flatMap fun a =>
    let ps := db.posts.filter fun p => decide (p.author_id = a.author_id)
    if ps.isEmpty then [⟨a, none, none⟩]
    else ps.flatMap fun p =>
      let es := db.engagements.filter fun e => decide (e.post_id = p.post_id)
      if es.isEmpty then [⟨a, some p, none⟩]
      else es.map fun e => ⟨a, some p, some e⟩

/-- The `WHERE` clause: `p.publish_timestamp >= start OR p.publish_timestamp
IS NULL` (the timestamp column is NULL exactly on the NULL-extended rows). -/
def rowPass (start : ℤ) (r : SummaryRow) : Bool :=
  match r.post with
  | none => true
  | some p => decide (start ≤ p.publish_timestamp)

/-- The join rows surviving the publish-window filter. -/
def filteredRows (db : DB) (start : ℤ) : List SummaryRow :=
  (summaryRows db).filter (rowPass start)

/-- `COUNT(DISTINCT a.author_id)` as a set: the distinct author ids among
the surviving rows. -/
def summaryAuthorIds (db : DB) (start : ℤ) : Finset ℤ :=
  ((filteredRows db start).map fun r => r.author.author_id).toFinset

/-- `COUNT(DISTINCT p.post_id)` as a set (NULL post ids are not counted). -/
def summaryPostIds (db : DB) (start : ℤ) : Finset ℤ :=
  ((filteredRows db start).filterMap fun r => r.post.map fun p => p.post_id).toFinset

/-- `COUNT(e.engagement_id)`: rows whose engagement column is not NULL. -/
def summaryEngCount (db : DB) (start : ℤ) : ℕ :=
  ((filteredRows db start).filter fun r => r.eng.isSome).length

/-- `COUNT(*) FILTER (WHERE e.type = t)`: a NULL engagement never matches. -/
def summaryTypeCount (db : DB) (start : ℤ) (t : EngType) : ℕ :=
  ((filteredRows db start).filter fun r =>
    match r.eng with
    | some e => decide (e.etype = t)
    | none => false).length

/-- The `SummaryMetrics` model. -/
structure SummaryMetrics where
  total_authors : ℕ
  total_posts : ℕ
  total_engagements : ℕ
  total_views : ℕ
  total_likes : ℕ
  total_comments : ℕ
  total_shares : ℕ
  avg_engagement_per_post : ℚ
deriving DecidableEq

/-- `GET /api/analytics/summary?days=N`.  `NULLIF(count, 0)` makes the
average NULL when no distinct post is counted, and `float(... or 0)`
turns that NULL into 0. -/
def get_analytics_summary (db : DB) (now days : ℤ) : SummaryMetrics :=
  let start := now - days * dayLen
  { total_authors := (summaryAuthorIds db start).card
    total_posts := (summaryPostIds db start).card
    total_engagements := summaryEngCount db start
    total_views := summaryTypeCount db start EngType.view
    total_likes := summaryTypeCount db start EngType.like
    total_comments := summaryTypeCount db start EngType.comment
    total_shares := summaryTypeCount db start EngType.share
    avg_engagement_per_post :=
      if (summaryPostIds db start).card = 0 then 0
      else pgRound2 ((summaryEngCount db start : ℚ) / ((summaryPostIds db start).card : ℚ)) }

/-! ## Dataset generator (`generate_engagements`)

For each generated engagement the script draws
`hours_after_publish = min(random.expovariate(0.1), 720)` (a nonnegative
real, capped at 720 hours) and `hour_adjustment ∈ {-3, ..., 3}`
(weighted), then sets

```
engaged_time = publish_time + timedelta(hours=hours_after_publish)
                            + timedelta(hours=hour_adjustment)
```

Time is measured in hours here; the two draws are the function's
arguments. -/
def engagedTime (publishTime hoursAfterPublish : ℚ) (hourAdjustment : ℤ) : ℚ :=
  publishTime + min hoursAfterPublish 720 + (hourAdjustment : ℚ)

/-! ## Structural lemmas about the trend aggregate -/

theorem mem_trendDates {es : List Engagement} {d : ℤ} :
    d ∈ trendDates es ↔ ∃ e ∈ es, dateOf e.engaged_timestamp = d := by
  unfold trendDates
  rw [(List.perm_insertionSort _ _).mem_iff, List.mem_dedup, List.mem_map]

theorem trendDates_nodup (es : List Engagement) : (trendDates es).Nodup :=
  (List.nodup_dedup _).perm (List.perm_insertionSort _ _).symm

theorem trendDates_sorted_lt (es : List Engagement) :
    (trendDates es).Sorted (· < ·) :=
  (List.sorted_insertionSort _ _).lt_of_le (trendDates_nodup es)

theorem trendRows_map_date (es : List Engagement) :
    ((trendRows es).map fun row => row.date) = trendDates es := by
  unfold trendRows
  rw [List.map_map]
  exact List.map_id _

theorem mem_trendRows_date {es : List Engagement} {d : ℤ} :
    (∃ row ∈ trendRows es, row.date = d) ↔
      ∃ e ∈ es, dateOf e.engaged_timestamp = d := by
  rw [← mem_trendDates, ← trendRows_map_date, List.mem_map]

theorem trendRows_fields {es : List Engagement} {row : EngagementTrend}
    (h : row ∈ trendRows es) :
    row.views = typeCount (onDate es row.date) EngType.view ∧
    row.likes = typeCount (onDate es row.date) EngType.like ∧
    row.comments = typeCount (onDate es row.date) EngType.comment ∧
    row.shares = typeCount (onDate es row.date) EngType.share ∧
    row.total = (onDate es row.date).length := by
  obtain ⟨d, _, rfl⟩ := List.mem_map.1 h
  exact ⟨rfl, rfl, rfl, rfl, rfl⟩

/-- Everything a successful post-trends response contains, read off the
handler. -/
theorem get_post_trends_ok {db : DB} {now pid days : ℤ}
    {r : PostTrendsResponse}
    (h : get_post_trends db now pid days = ApiResult.ok r) :
    r.current_period = trendRows (currentEngsPost db pid now days) ∧
    r.previous_period = trendRows (previousEngsPost db pid now days) ∧
    r.change_percent =
      change_percent_calc (sumTotals r.current_period)
        (sumTotals r.previous_period) := by
  unfold get_post_trends postTrendsBody at h
  cases hf : db.posts.find? fun p => decide (p.post_id = pid) with
  | none => rw [hf] at h; exact absurd h (by simp)
  | some post =>
    rw [hf] at h
    simp only [ApiResult.ok.injEq] at h
    subst h
    exact ⟨rfl, rfl, rfl⟩

/-- Everything a successful author-trends response contains. -/
theorem get_author_trends_ok {db : DB} {now aid days : ℤ}
    {r : AuthorTrendsResponse}
    (h : get_author_trends db now aid days = ApiResult.ok r) :
    r.current_period = trendRows (currentEngsAuthor db aid now days) ∧
    r.previous_period = trendRows (previousEngsAuthor db aid now days) ∧
    r.change_percent =
      change_percent_calc (sumTotals r.current_period)
        (sumTotals r.previous_period) := by
  unfold get_author_trends authorTrendsBody at h
  cases hf : db.authors.find? fun a => decide (a.author_id = aid) with
  | none => rw [hf] at h; exact absurd h (by simp)
  | some author =>
    rw [hf] at h
    simp only [ApiResult.ok.injEq] at h
    subst h
    exact ⟨rfl, rfl, rfl⟩

/-! ## Concrete database states used in witnesses and counterexamples -/

/-- A database with no rows at all. -/
def emptyDB : DB := { authors := [], posts := [], engagements := [] }

/-- One author, one post, no engagements. -/
def witDB : DB :=
  { authors := [{ author_id := 1, name := "a" }]
    posts := [{ post_id := 1, author_id := 1, title := "t", publish_timestamp := 0 }]
    engagements := [] }

/-- One author, one post, one engagement in each trend window for
`now = 1300000`, `days = 7`. -/
def trendDB : DB :=
  { authors := [{ author_id := 1, name := "a" }]
    posts := [{ post_id := 1, author_id := 1, title := "t", publish_timestamp := 0 }]
    engagements :=
      [{ engagement_id := 1, post_id := 1, etype := EngType.view, user_id := none,
         engaged_timestamp := 700000 },
       { engagement_id := 2, post_id := 1, etype := EngType.like, user_id := none,
         engaged_timestamp := 100000 }] }

/-- One author, one post, and a single engagement whose timestamp `100`
lies at or after `now = 0`, hence outside the window `[now - N, now)`. -/
def futureDB : DB :=
  { authors := [{ author_id := 1, name := "a" }]
    posts := [{ post_id := 1, author_id := 1, title := "t", publish_timestamp := 0 }]
    engagements :=
      [{ engagement_id := 1, post_id := 1, etype := EngType.view, user_id := none,
         engaged_timestamp := 100 }] }

/-- The post-trends response for `witDB`, `now = 0`, `days = 7`. -/
def witPostResp : PostTrendsResponse :=
  { post_id := 1, post_title := "t", current_period := [], previous_period := []
    change_percent := 0 }

/-- The author-trends response for `witDB`, `now = 0`, `days = 7`. -/
def witAuthorResp : AuthorTrendsResponse :=
  { author_id := 1, author_name := "a", current_period := [], previous_period := []
    change_percent := 0 }

/-- The post-trends response for `trendDB`, `now = 1300000`, `days = 7`. -/
def trendPostResp : PostTrendsResponse :=
  { post_id := 1, post_title := "t"
    current_period :=
      [{ date := 8, views := 1, likes := 0, comments := 0, shares := 0, total := 1 }]
    previous_period :=
      [{ date := 1, views := 0, likes := 1, comments := 0, shares := 0, total := 1 }]
    change_percent := 0 }

/-- The author-trends response for `trendDB`, `now = 1300000`, `days = 7`. -/
def trendAuthorResp : AuthorTrendsResponse :=
  { author_id := 1, author_name := "a"
    current_period :=
      [{ date := 8, views := 1, likes := 0, comments := 0, shares := 0, total := 1 }]
    previous_period :=
      [{ date := 1, views := 0, likes := 1, comments := 0, shares := 0, total := 1 }]
    change_percent := 0 }

/-! ## Small computation lemmas -/

unseal Rat.inv Rat.mul Rat.add Rat.sub in
theorem round2_zero : round2 0 = 0 := by decide

theorem change_percent_calc_prev_zero (c : ℕ) : change_percent_calc c 0 = 0 := by
  unfold change_percent_calc
  rw [if_neg (lt_irrefl 0)]
  exact round2_zero

/-! ## The claims -/

/-- C2 (code bug): requesting a nonexistent post id or author id is meant
to produce a 404, but the `raise HTTPException(status_code=404, ...)`
sits inside the `try:` block whose `except Exception as e:` clause
catches `HTTPException` (a subclass of `Exception`) and re-raises it as
`HTTPException(500, str(e))`.  On a database with no post 999 and no
author 999, both trend endpoints therefore answer with status 500. -/
theorem c2_missing_entity_yields_500 :
    get_post_trends emptyDB 0 999 7 = ApiResult.err 500 "404: Post not found" ∧
    get_author_trends emptyDB 0 999 7 = ApiResult.err 500 "404: Author not found" :=
  ⟨rfl, rfl⟩

/-- C3: in every successful trend response (post or author), if the summed
total of the previous window is 0 then the returned change_percent is 0,
regardless of the current window's total. -/
theorem c3_change_zero_when_previous_zero
    (db : DB) (now pid aid days : ℤ)
    (rp : PostTrendsResponse) (ra : AuthorTrendsResponse)
    (hp : get_post_trends db now pid days = ApiResult.ok rp)
    (ha : get_author_trends db now aid days = ApiResult.ok ra)
    (hzp : sumTotals rp.previous_period = 0)
    (hza : sumTotals ra.previous_period = 0) :
    rp.change_percent = 0 ∧ ra.change_percent = 0 := by
  obtain ⟨-, -, hcp⟩ := get_post_trends_ok hp
  obtain ⟨-, -, hca⟩ := get_author_trends_ok ha
  rw [hcp, hzp, hca, hza]
  exact ⟨change_percent_calc_prev_zero _, change_percent_calc_prev_zero _⟩

unseal Rat.inv Rat.mul Rat.add Rat.sub in
theorem c3_witness :
    witPostResp.change_percent = 0 ∧ witAuthorResp.change_percent = 0 :=
  c3_change_zero_when_previous_zero witDB 0 1 1 7 witPostResp witAuthorResp
    (by decide) (by decide) (by decide) (by decide)

/-- C7: in every summary response, when the count of distinct posts in the
window is zero the reported average engagement per post is 0: the
division is guarded (`NULLIF(..., 0)` makes it NULL, `or 0` maps the
NULL to 0) and is never performed with a zero divisor. -/
theorem c7_avg_engagement_guarded (db : DB) (now days : ℤ)
    (h : (get_analytics_summary db now days).total_posts = 0) :
    (get_analytics_summary db now days).avg_engagement_per_post = 0 := by
  simp only [get_analytics_summary] at h ⊢
  rw [if_pos h]

theorem c7_witness :
    (get_analytics_summary emptyDB 0 30).total_posts = 0 ∧
    (get_analytics_summary emptyDB 0 30).avg_engagement_per_post = 0 :=
  ⟨by decide, c7_avg_engagement_guarded emptyDB 0 30 (by decide)⟩

/-- C8 (code bug): the generator's own comment says the engagement happens
after publish with the lag capped at 720 hours, but after capping
`hours_after_publish` at 720 the script adds `hour_adjustment ∈ [-3, 3]`.
With draws `hours_after_publish = 1, hour_adjustment = -3` the engagement
lands 2 hours before the publish timestamp, and with
`hours_after_publish = 721 (capped to 720), hour_adjustment = 3` the lag
is 723 hours, above the 720-hour cap. -/
theorem c8_engagement_lag_bounds_violated :
    engagedTime 0 1 (-3) = -2 ∧ engagedTime 0 1 (-3) < 0 ∧
    engagedTime 0 721 3 = 723 ∧ 720 < engagedTime 0 721 3 := by
  refine ⟨?_, ?_, ?_, ?_⟩ <;> norm_num [engagedTime]

unseal Rat.inv Rat.mul Rat.add Rat.sub in
/-- C1 (counterexample): with `now = 0` and `days = 7` no engagement of
post 1 in `futureDB` has its timestamp in the spec's current window
`[now − N, now)` — the filter below is empty — yet the reported
`current_period` counts one engagement: the current-period query has no
upper bound, so the engagement at timestamp `100 ≥ now` is included. -/
theorem c1_counterexample :
    (futureDB.engagements.filter fun e =>
        decide (e.post_id = 1 ∧ 0 - 7 * dayLen ≤ e.engaged_timestamp ∧
                e.engaged_timestamp < 0)) = [] ∧
    get_post_trends futureDB 0 1 7 = ApiResult.ok
      { post_id := 1, post_title := "t"
        current_period :=
          [{ date := 0, views := 1, likes := 0, comments := 0, shares := 0, total := 1 }]
        previous_period := [], change_percent := 0 } :=
  ⟨by decide, by decide⟩

/-- C1 (amended): in every successful trend response the engagements
counted in `current_period` are exactly those with timestamp `≥ now − N`
days — the current window has no upper bound — and those counted in
`previous_period` exactly those in `[now − 2N, now − N)`; every
previous-window engagement strictly precedes every current-window
engagement and no engagement belongs to both windows.  (The spec's
equal-duration clause fails because the current window is unbounded.) -/
theorem c1_amended_window_partition
    (db : DB) (now pid aid days : ℤ)
    (rp : PostTrendsResponse) (ra : AuthorTrendsResponse)
    (hp : get_post_trends db now pid days = ApiResult.ok rp)
    (ha : get_author_trends db now aid days = ApiResult.ok ra) :
    rp.current_period = trendRows (currentEngsPost db pid now days) ∧
    rp.previous_period = trendRows (previousEngsPost db pid now days) ∧
    ra.current_period = trendRows (currentEngsAuthor db aid now days) ∧
    ra.previous_period = trendRows (previousEngsAuthor db aid now days) ∧
    (∀ e ∈ previousEngsPost db pid now days, ∀ f ∈ currentEngsPost db pid now days,
      e.engaged_timestamp < f.engaged_timestamp) ∧
    (∀ e ∈ previousEngsAuthor db aid now days, ∀ f ∈ currentEngsAuthor db aid now days,
      e.engaged_timestamp < f.engaged_timestamp) ∧
    (∀ e : Engagement,
      ¬(e ∈ previousEngsPost db pid now days ∧ e ∈ currentEngsPost db pid now days)) ∧
    (∀ e : Engagement,
      ¬(e ∈ previousEngsAuthor db aid now days ∧ e ∈ currentEngsAuthor db aid now days)) := by
  refine ⟨(get_post_trends_ok hp).1, (get_post_trends_ok hp).2.1,
    (get_author_trends_ok ha).1, (get_author_trends_ok ha).2.1, ?_, ?_, ?_, ?_⟩
  · intro e he f hf
    have h1 := (List.mem_filter.1 he).2
    have h2 := (List.mem_filter.1 hf).2
    simp only [decide_eq_true_eq] at h1 h2
    obtain ⟨-, -, h1⟩ := h1
    obtain ⟨-, h2⟩ := h2
    omega
  · intro e he f hf
    have h1 := (List.mem_filter.1 he).2
    have h2 := (List.mem_filter.1 hf).2
    simp only [decide_eq_true_eq] at h1 h2
    obtain ⟨-, h1⟩ := h1
    omega
  · rintro e ⟨he, hf⟩
    have h1 := (List.mem_filter.1 he).2
    have h2 := (List.mem_filter.1 hf).2
    simp only [decide_eq_true_eq] at h1 h2
    obtain ⟨-, -, h1⟩ := h1
    obtain ⟨-, h2⟩ := h2
    omega
  · rintro e ⟨he, hf⟩
    have h1 := (List.mem_filter.1 he).2
    have h2 := (List.mem_filter.1 hf).2
    simp only [decide_eq_true_eq] at h1 h2
    obtain ⟨-, h1⟩ := h1
    omega

unseal Rat.inv Rat.mul Rat.add Rat.sub in
theorem c1_witness :
    trendPostResp.current_period = trendRows (currentEngsPost trendDB 1 1300000 7) ∧
    trendPostResp.previous_period = trendRows (previousEngsPost trendDB 1 1300000 7) :=
  ⟨(c1_amended_window_partition trendDB 1300000 1 1 7 trendPostResp trendAuthorResp
      (by decide) (by decide)).1,
   (c1_amended_window_partition trendDB 1300000 1 1 7 trendPostResp trendAuthorResp
      (by decide) (by decide)).2.1⟩

unseal Rat.inv Rat.mul Rat.add Rat.sub in
/-- C4: in every successful trend response whose previous-window summed
total `P` is positive, the returned change_percent is
`((C − P) / P) * 100` rounded to two decimal places, where `C` is the
current-window summed total; in particular previous total 100 and
current total 150 give 50. -/
theorem c4_change_percent_formula
    (db : DB) (now pid aid days : ℤ)
    (rp : PostTrendsResponse) (ra : AuthorTrendsResponse)
    (hp : get_post_trends db now pid days = ApiResult.ok rp)
    (ha : get_author_trends db now aid days = ApiResult.ok ra)
    (hpp : 0 < sumTotals rp.previous_period)
    (hpa : 0 < sumTotals ra.previous_period) :
    rp.change_percent =
      round2 ((((sumTotals rp.current_period : ℚ) - (sumTotals rp.previous_period : ℚ)) /
        (sumTotals rp.previous_period : ℚ)) * 100) ∧
    ra.change_percent =
      round2 ((((sumTotals ra.current_period : ℚ) - (sumTotals ra.previous_period : ℚ)) /
        (sumTotals ra.previous_period : ℚ)) * 100) ∧
    change_percent_calc 150 100 = 50 := by
  obtain ⟨-, -, hcp⟩ := get_post_trends_ok hp
  obtain ⟨-, -, hca⟩ := get_author_trends_ok ha
  refine ⟨?_, ?_, by decide⟩
  · rw [hcp]; unfold change_percent_calc; rw [if_pos hpp]
  · rw [hca]; unfold change_percent_calc; rw [if_pos hpa]

unseal Rat.inv Rat.mul Rat.add Rat.sub in
theorem c4_witness :
    0 < sumTotals trendPostResp.previous_period ∧
    trendPostResp.change_percent =
      round2 ((((sumTotals trendPostResp.current_period : ℚ) -
        (sumTotals trendPostResp.previous_period : ℚ)) /
        (sumTotals trendPostResp.previous_period : ℚ)) * 100) :=
  ⟨by decide,
   (c4_change_percent_formula trendDB 1300000 1 1 7 trendPostResp trendAuthorResp
      (by decide) (by decide) (by decide) (by decide)).1⟩

/-- The grouped result `rows` has exactly one row per calendar date
occurring in `es` — no row for any other date — and each row carries that
date's per-type counts and total. -/
def rowsMatchWindow (rows : List EngagementTrend) (es : List Engagement) : Prop :=
  (∀ d : ℤ, (∃ row ∈ rows, row.date = d) ↔ ∃ e ∈ es, dateOf e.engaged_timestamp = d) ∧
  (rows.map fun row => row.date).Nodup ∧
  ∀ row ∈ rows,
    row.views = typeCount (onDate es row.date) EngType.view ∧
    row.likes = typeCount (onDate es row.date) EngType.like ∧
    row.comments = typeCount (onDate es row.date) EngType.comment ∧
    row.shares = typeCount (onDate es row.date) EngType.share ∧
    row.total = (onDate es row.date).length

theorem trendRows_window_spec (es : List Engagement) :
    rowsMatchWindow (trendRows es) es := by
  refine ⟨fun d => mem_trendRows_date, ?_, fun row h => trendRows_fields h⟩
  rw [trendRows_map_date]
  exact trendDates_nodup es

/-- C6: in every successful trend response each of `current_period` and
`previous_period` has exactly one row per calendar date with at least one
engagement in the queried window, with per-type counts and a row total;
a date with no engagements contributes no row, so the series is sparse. -/
theorem c6_sparse_one_row_per_date
    (db : DB) (now pid aid days : ℤ)
    (rp : PostTrendsResponse) (ra : AuthorTrendsResponse)
    (hp : get_post_trends db now pid days = ApiResult.ok rp)
    (ha : get_author_trends db now aid days = ApiResult.ok ra) :
    rowsMatchWindow rp.current_period (currentEngsPost db pid now days) ∧
    rowsMatchWindow rp.previous_period (previousEngsPost db pid now days) ∧
    rowsMatchWindow ra.current_period (currentEngsAuthor db aid now days) ∧
    rowsMatchWindow ra.previous_period (previousEngsAuthor db aid now days) := by
  obtain ⟨h1, h2, -⟩ := get_post_trends_ok hp
  obtain ⟨h3, h4, -⟩ := get_author_trends_ok ha
  rw [h1, h2, h3, h4]
  exact ⟨trendRows_window_spec _, trendRows_window_spec _,
    trendRows_window_spec _, trendRows_window_spec _⟩

unseal Rat.inv Rat.mul Rat.add Rat.sub in
theorem c6_witness :
    rowsMatchWindow trendPostResp.current_period (currentEngsPost trendDB 1 1300000 7) :=
  (c6_sparse_one_row_per_date trendDB 1300000 1 1 7 trendPostResp trendAuthorResp
    (by decide) (by decide)).1

/-- C10: in every successful trend response the rows of `current_period`
and of `previous_period` are each in strictly increasing date order. -/
theorem c10_trend_rows_sorted
    (db : DB) (now pid aid days : ℤ)
    (rp : PostTrendsResponse) (ra : AuthorTrendsResponse)
    (hp : get_post_trends db now pid days = ApiResult.ok rp)
    (ha : get_author_trends db now aid days = ApiResult.ok ra) :
    ((rp.current_period.map fun row => row.date).Sorted (· < ·)) ∧
    ((rp.previous_period.map fun row => row.date).Sorted (· < ·)) ∧
    ((ra.current_period.map fun row => row.date).Sorted (· < ·)) ∧
    ((ra.previous_period.map fun row => row.date).Sorted (· < ·)) := by
  obtain ⟨h1, h2, -⟩ := get_post_trends_ok hp
  obtain ⟨h3, h4, -⟩ := get_author_trends_ok ha
  rw [h1, h2, h3, h4]
  simp only [trendRows_map_date]
  exact ⟨trendDates_sorted_lt _, trendDates_sorted_lt _,
    trendDates_sorted_lt _, trendDates_sorted_lt _⟩

unseal Rat.inv Rat.mul Rat.add Rat.sub in
theorem c10_witness :
    (trendPostResp.current_period.map fun row => row.date).Sorted (· < ·) :=
  (c10_trend_rows_sorted trendDB 1300000 1 1 7 trendPostResp trendAuthorResp
    (by decide) (by decide)).1

/-! ## Monotonicity of the summary row set in the window start -/

theorem rowPass_mono {s1 s2 : ℤ} (h : s2 ≤ s1) :
    ∀ r : SummaryRow, rowPass s1 r = true → rowPass s2 r = true := by
  intro r hr
  unfold rowPass at hr ⊢
  cases hp : r.post with
  | none => rfl
  | some p =>
    rw [hp] at hr
    simp only [decide_eq_true_eq] at hr ⊢
    omega

theorem filteredRows_sublist (db : DB) {s1 s2 : ℤ} (h : s2 ≤ s1) :
    (filteredRows db s1).Sublist (filteredRows db s2) :=
  List.monotone_filter_right _ (rowPass_mono h)

theorem toFinset_card_le_of_sublist {l1 l2 : List ℤ} (h : l1.Sublist l2) :
    l1.toFinset.card ≤ l2.toFinset.card :=
  Finset.card_le_card fun _ hx =>
    List.mem_toFinset.2 (h.subset (List.mem_toFinset.1 hx))

/-- C5: for a fixed database, every count field of the summary response is
monotonically non-decreasing in the window parameter `N`: widening the
window moves the start earlier, which can only let more join rows through
the publish-window filter. -/
theorem c5_summary_counts_monotone (db : DB) (now d1 d2 : ℤ) (h : d1 ≤ d2) :
    (get_analytics_summary db now d1).total_authors ≤
      (get_analytics_summary db now d2).total_authors ∧
    (get_analytics_summary db now d1).total_posts ≤
      (get_analytics_summary db now d2).total_posts ∧
    (get_analytics_summary db now d1).total_engagements ≤
      (get_analytics_summary db now d2).total_engagements ∧
    (get_analytics_summary db now d1).total_views ≤
      (get_analytics_summary db now d2).total_views ∧
    (get_analytics_summary db now d1).total_likes ≤
      (get_analytics_summary db now d2).total_likes ∧
    (get_analytics_summary db now d1).total_comments ≤
      (get_analytics_summary db now d2).total_comments ∧
    (get_analytics_summary db now d1).total_shares ≤
      (get_analytics_summary db now d2).total_shares := by
  have hd : (0 : ℤ) ≤ dayLen := by norm_num [dayLen]
  have hs : now - d2 * dayLen ≤ now - d1 * dayLen := by
    have := mul_le_mul_of_nonneg_right h hd
    omega
  have hsub := filteredRows_sublist db hs
  simp only [get_analytics_summary, summaryAuthorIds, summaryPostIds,
    summaryEngCount, summaryTypeCount]
  exact ⟨toFinset_card_le_of_sublist (hsub.map _),
    toFinset_card_le_of_sublist (hsub.filterMap _),
    (hsub.filter _).length_le, (hsub.filter _).length_le,
    (hsub.filter _).length_le, (hsub.filter _).length_le,
    (hsub.filter _).length_le⟩

theorem c5_witness :
    (get_analytics_summary witDB 0 7).total_authors ≤
      (get_analytics_summary witDB 0 30).total_authors ∧
    (get_analytics_summary witDB 0 7).total_posts ≤
      (get_analytics_summary witDB 0 30).total_posts ∧
    (get_analytics_summary witDB 0 7).total_engagements ≤
      (get_analytics_summary witDB 0 30).total_engagements ∧
    (get_analytics_summary witDB 0 7).total_views ≤
      (get_analytics_summary witDB 0 30).total_views ∧
    (get_analytics_summary witDB 0 7).total_likes ≤
      (get_analytics_summary witDB 0 30).total_likes ∧
    (get_analytics_summary witDB 0 7).total_comments ≤
      (get_analytics_summary witDB 0 30).total_comments ∧
    (get_analytics_summary witDB 0 7).total_shares ≤
      (get_analytics_summary witDB 0 30).total_shares :=
  c5_summary_counts_monotone witDB 0 7 30 (by decide)

/-! ## Which authors the summary counts -/

/-- Any row produced for an author with at least one post carries one of
that author's posts in its post column. -/
theorem summaryRows_post_of_mem {db : DB} {r : SummaryRow}
    (hrs : r ∈ summaryRows db)
    (hne : (db.posts.filter fun p => decide (p.author_id = r.author.author_id)) ≠ []) :
    ∃ p ∈ db.posts, p.author_id = r.author.author_id ∧ r.post = some p := by
  unfold summaryRows at hrs
  obtain ⟨a', ha', hra⟩ := List.mem_flatMap.1 hrs
  by_cases hpe : (db.posts.filter fun p => decide (p.author_id = a'.author_id)).isEmpty
  · rw [if_pos hpe] at hra
    have hreq : r = ⟨a', none, none⟩ := List.mem_singleton.1 hra
    rw [hreq] at hne
    exact absurd (List.isEmpty_iff.1 hpe) hne
  · rw [if_neg hpe] at hra
    obtain ⟨p, hp, hrp⟩ := List.mem_flatMap.1 hra
    obtain ⟨hpPosts, hpid⟩ := List.mem_filter.1 hp
    simp only [decide_eq_true_eq] at hpid
    by_cases hee : (db.engagements.filter fun e => decide (e.post_id = p.post_id)).isEmpty
    · rw [if_pos hee] at hrp
      have hreq : r = ⟨a', some p, none⟩ := List.mem_singleton.1 hrp
      subst hreq
      exact ⟨p, hpPosts, hpid, rfl⟩
    · rw [if_neg hee] at hrp
      obtain ⟨e, _, hre⟩ := List.mem_map.1 hrp
      rw [← hre]
      exact ⟨p, hpPosts, hpid, rfl⟩

/-- C9: the summary's total_authors is the number of distinct author ids
among the filtered join rows; an author with no posts at all contributes
their id (the NULL-extended row passes the filter), while an author who
has posts, all published before the window start, contributes no row at
all. -/
theorem c9_total_authors_membership
    (db : DB) (now days : ℤ) (a : Author) (ha : a ∈ db.authors) :
    (get_analytics_summary db now days).total_authors =
      (summaryAuthorIds db (now - days * dayLen)).card ∧
    ((db.posts.filter fun p => decide (p.author_id = a.author_id)) = [] →
      a.author_id ∈ summaryAuthorIds db (now - days * dayLen)) ∧
    (((db.posts.filter fun p => decide (p.author_id = a.author_id)) ≠ [] ∧
      ∀ p ∈ db.posts, p.author_id = a.author_id →
        p.publish_timestamp < now - days * dayLen) →
      a.author_id ∉ summaryAuthorIds db (now - days * dayLen)) := by
  refine ⟨rfl, ?_, ?_⟩
  · intro hps
    apply List.mem_toFinset.2
    apply List.mem_map.2
    refine ⟨⟨a, none, none⟩, ?_, rfl⟩
    apply List.mem_filter.2
    refine ⟨?_, rfl⟩
    unfold summaryRows
    apply List.mem_flatMap.2
    refine ⟨a, ha, ?_⟩
    rw [hps]
    simp
  · rintro ⟨hne, hall⟩ hmem
    obtain ⟨r, hr, hid⟩ := List.mem_map.1 (List.mem_toFinset.1 hmem)
    obtain ⟨hrs, hpass⟩ := List.mem_filter.1 hr
    have hne' : (db.posts.filter fun p => decide (p.author_id = r.author.author_id)) ≠ [] := by
      rw [List.filter_congr fun p _ => by rw [hid]]
      exact hne
    obtain ⟨p, hpPosts, hpid, hpost⟩ := summaryRows_post_of_mem hrs hne'
    unfold rowPass at hpass
    rw [hpost] at hpass
    simp only [decide_eq_true_eq] at hpass
    have hlt := hall p hpPosts (by rw [hpid, hid])
    omega

theorem c9_witness :
    ((witDB.posts.filter fun p => decide (p.author_id = 1)) ≠ [] ∧
      ∀ p ∈ witDB.posts, p.author_id = 1 →
        p.publish_timestamp < 10000000 - 7 * dayLen) ∧
    (1 : ℤ) ∉ summaryAuthorIds witDB (10000000 - 7 * dayLen) :=
  ⟨⟨by decide, by decide⟩,
   (c9_total_authors_membership witDB 10000000 7 { author_id := 1, name := "a" }
      (by decide)).2.2 ⟨by decide, by decide⟩⟩

end Analytics
